import Mathlib

/-!
Verification development for the statement-import and transaction-classification
pipeline of the PlannerFinanceiroPJ repository.

The Python sources are shallowly embedded: pure helpers become Lean functions,
the SQLite store becomes explicit data (lists of rows), machine floats that only
carry exact decimal amounts become rationals, and fallible code returns
`Except`/`Option`.  External collaborators (the `re` regex library, the SQLite
binding layer) are modelled by explicit parameters or by explicit
binding-arity checks, mirroring exactly what the Python code observes of them.
-/

namespace PlannerPJ

/-! ## Generic character/string helpers (used by the embeddings below) -/

/-- Numeric value of a list of ASCII digit characters (most significant first). -/
def digitosValor (cs : List Char) : Nat :=
  cs.foldl (fun n c => 10 * n + (c.toNat - 48)) 0

/-- Split a character list on a separator character (like Python `str.split(sep)`;
also used to model `%Y-%m-%d`-style field separation). -/
def quebraEm (sep : Char) : List Char → List (List Char)
  | [] => [[]]
  | c :: t =>
    let r := quebraEm sep t
    if c = sep then [] :: r
    else
      match r with
      | [] => [[c]]
      | h :: rs => (c :: h) :: rs

/-- Tests whether `p` occurs at the start of `v` (character lists). -/
def comecaCom (p v : List Char) : Bool :=
  match p, v with
  | [], _ => true
  | _ :: _, [] => false
  | a :: ps, b :: vs => a = b && comecaCom ps vs

/-- Tests whether `p` occurs somewhere inside `v` (Python `p in v` on strings; the empty
pattern occurs in every string). -/
def contidoEm (p : List Char) : List Char → Bool
  | [] => p.isEmpty
  | c :: t => comecaCom p (c :: t) || contidoEm p t

/-- Python `str.strip` whitespace set (ASCII part). -/
def ehEspacoPython (c : Char) : Bool :=
  c = ' ' ∨ c = '\t' ∨ c = '\n' ∨ c = '\x0d' ∨ c = '\x0b' ∨ c = '\x0c'

/-- Python `str.strip()`. -/
def aparar (s : String) : String :=
  String.mk (((s.data.dropWhile ehEspacoPython).reverse.dropWhile ehEspacoPython).reverse)

/-- Python `str.upper()` (ASCII case mapping; the statements fed through this
pipeline are ASCII). -/
def maiusculaChar (c : Char) : Char :=
  if 'a' ≤ c ∧ c ≤ 'z' then Char.ofNat (c.toNat - 32) else c

/-- Python `str.lower()` (ASCII case mapping). -/
def minusculaChar (c : Char) : Char :=
  if 'A' ≤ c ∧ c ≤ 'Z' then Char.ofNat (c.toNat + 32) else c

/-- Python `s.upper()`. -/
def paraMaiusculas (s : String) : String :=
  String.mk (s.data.map maiusculaChar)

/-- Python `s.lower()`. -/
def paraMinusculas (s : String) : String :=
  String.mk (s.data.map minusculaChar)

/-! ## `core/utils.py` — value/date normalizer -/

/-- Days in a month, with the Gregorian leap rule (what `datetime` validates). -/
def diasNoMes (y m : Nat) : Nat :=
  if m = 2 then (if (y % 4 = 0 ∧ y % 100 ≠ 0) ∨ y % 400 = 0 then 29 else 28)
  else if m = 4 ∨ m = 6 ∨ m = 9 ∨ m = 11 then 30 else 31

/-- Calendar validity as enforced by `datetime` construction
(`MINYEAR = 1`, `MAXYEAR = 9999`). -/
def dataValida (y m d : Nat) : Bool :=
  1 ≤ y ∧ y ≤ 9999 ∧ 1 ≤ m ∧ m ≤ 12 ∧ 1 ≤ d ∧ d ≤ diasNoMes y m

/-- A `%Y` field: exactly four ASCII digits (Python `_strptime` regex `\d{4}`). -/
def campoAno (cs : List Char) : Option Nat :=
  if cs.length = 4 ∧ cs.all (·.isDigit) then some (digitosValor cs) else none

/-- A `%m` field: one or two digits with value 1..12
(`_strptime` regex `1[0-2]|0[1-9]|[1-9]`). -/
def campoMes (cs : List Char) : Option Nat :=
  if cs ≠ [] ∧ cs.length ≤ 2 ∧ cs.all (·.isDigit) then
    let v := digitosValor cs
    if 1 ≤ v ∧ v ≤ 12 then some v else none
  else none

/-- A `%d` field: one or two digits with value 1..31
(`_strptime` regex `3[01]|[12]\d|0[1-9]|[1-9]`); calendar validity is
checked later, as `datetime` does. -/
def campoDia (cs : List Char) : Option Nat :=
  if cs ≠ [] ∧ cs.length ≤ 2 ∧ cs.all (·.isDigit) then
    let v := digitosValor cs
    if 1 ≤ v ∧ v ≤ 31 then some v else none
  else none

/-- Python `strptime(s, "%Y-%m-%d")` (the separator is a parameter so the same
function also covers the `/`-separated form by field reordering below). -/
def tentaAMD (sep : Char) (cs : List Char) : Option (Nat × Nat × Nat) :=
  match quebraEm sep cs with
  | [y, m, d] =>
    match campoAno y, campoMes m, campoDia d with
    | some ys, some ms, some ds =>
      if dataValida ys ms ds then some (ys, ms, ds) else none
    | _, _, _ => none
  | _ => none

/-- Python `strptime(s, "%d/%m/%Y")` and `strptime(s, "%d-%m-%Y")`. -/
def tentaDMA (sep : Char) (cs : List Char) : Option (Nat × Nat × Nat) :=
  match quebraEm sep cs with
  | [d, m, y] =>
    match campoAno y, campoMes m, campoDia d with
    | some ys, some ms, some ds =>
      if dataValida ys ms ds then some (ys, ms, ds) else none
    | _, _, _ => none
  | _ => none

/-- Month alternatives of the `_strptime` `%m` regex in preference order,
each with the remaining input. -/
def alternativasMes : List Char → List (Nat × List Char)
  | c1 :: c2 :: rest =>
    (if c1 = '1' ∧ (c2 = '0' ∨ c2 = '1' ∨ c2 = '2') then
       [(digitosValor [c1, c2], rest)] else []) ++
    (if c1 = '0' ∧ c2.isDigit ∧ c2 ≠ '0' then
       [(digitosValor [c2], rest)] else []) ++
    (if c1.isDigit ∧ c1 ≠ '0' then [(digitosValor [c1], c2 :: rest)] else [])
  | [c1] => if c1.isDigit ∧ c1 ≠ '0' then [(digitosValor [c1], [])] else []
  | [] => []

/-- Day alternatives of the `_strptime` `%d` regex in preference order. -/
def alternativasDia : List Char → List (Nat × List Char)
  | c1 :: c2 :: rest =>
    (if c1 = '3' ∧ (c2 = '0' ∨ c2 = '1') then
       [(digitosValor [c1, c2], rest)] else []) ++
    (if (c1 = '1' ∨ c1 = '2') ∧ c2.isDigit then
       [(digitosValor [c1, c2], rest)] else []) ++
    (if c1 = '0' ∧ c2.isDigit ∧ c2 ≠ '0' then
       [(digitosValor [c2], rest)] else []) ++
    (if c1.isDigit ∧ c1 ≠ '0' then [(digitosValor [c1], c2 :: rest)] else [])
  | [c1] => if c1.isDigit ∧ c1 ≠ '0' then [(digitosValor [c1], [])] else []
  | [] => []

/-- First month/day split found by the backtracking regex engine
(depth-first over the alternatives, month outer, day inner). -/
def primeiroMesDia (cs : List Char) : Option (Nat × Nat × List Char) :=
  (alternativasMes cs).findSome? fun md =>
    ((alternativasDia md.2).head?).map fun dd => (md.1, dd.1, dd.2)

/-- Python `strptime(s, "%Y%m%d")`: four-digit year, then the regex engine's first
month/day match; the match must span the whole string, then the date must be
calendar-valid. -/
def tentaCompacto (cs : List Char) : Option (Nat × Nat × Nat) :=
  match cs with
  | a :: b :: c :: d :: rest =>
    if [a, b, c, d].all (·.isDigit) then
      let y := digitosValor [a, b, c, d]
      match primeiroMesDia rest with
      | some (m, dd, sobra) =>
        if sobra = [] ∧ dataValida y m dd then some (y, m, dd) else none
      | none => none
    else none
  | _ => none

/-- Zero-pad a number to two digits (`strftime` `%m` / `%d`). -/
def pad2 (n : Nat) : String :=
  if n < 10 then "0" ++ toString n else toString n

/-- Python `dt.strftime("%Y-%m-%d")` (glibc `%Y` does not zero-pad the year;
`%m`/`%d` are zero-padded to two digits). -/
def formataData : Nat × Nat × Nat → String
  | (y, m, d) => toString y ++ "-" ++ pad2 m ++ "-" ++ pad2 d

/-- Embeds `utils.parse_date`: try, in order, `%Y-%m-%d`, `%d/%m/%Y`, `%d-%m-%Y`,
`%Y%m%d`; return the first that parses, formatted back to ISO, else `none`.
Empty input short-circuits to `none`. -/
def parse_date (date_str : String) : Option String :=
  if date_str = "" then none
  else
    let cs := (aparar date_str).toList
    match tentaAMD '-' cs with
    | some ymd => some (formataData ymd)
    | none =>
      match tentaDMA '/' cs with
      | some ymd => some (formataData ymd)
      | none =>
        match tentaDMA '-' cs with
        | some ymd => some (formataData ymd)
        | none => (tentaCompacto cs).map formataData

/-- Exponent part of a Python `float()` literal: optional sign, then at
least one digit. -/
def parteExpoente (cs : List Char) : Option Int :=
  let (sgn, ds) : Int × List Char :=
    match cs with
    | '+' :: t => (1, t)
    | '-' :: t => (-1, t)
    | t => (1, t)
  if ds ≠ [] ∧ ds.all (·.isDigit) then some (sgn * (digitosValor ds : Int))
  else none

/-- Mantissa of a Python `float()` literal: `digits[.digits]` or `.digits`,
with at least one digit overall.  Returns the exact rational value.
(`inf`/`nan` and digit-group underscores are not modelled: the repository
only feeds decimal statement amounts through this path.) -/
def parteMantissa (cs : List Char) : Option ℚ :=
  match quebraEm '.' cs with
  | [ip] =>
    if ip ≠ [] ∧ ip.all (·.isDigit) then some ((digitosValor ip : ℚ)) else none
  | [ip, fp] =>
    if (ip ++ fp) ≠ [] ∧ ip.all (·.isDigit) ∧ fp.all (·.isDigit) then
      some ((digitosValor (ip ++ fp) : ℚ) / (10 : ℚ) ^ fp.length)
    else none
  | _ => none

/-- Python `float(s)` on an already-stripped string, as an exact rational;
`none` models `ValueError`. -/
def pythonFloat? (s : String) : Option ℚ :=
  let cs0 := s.toList.map fun c => if c = 'E' then 'e' else c
  let (sgn, cs) : ℚ × List Char :=
    match cs0 with
    | '+' :: t => (1, t)
    | '-' :: t => (-1, t)
    | t => (1, t)
  match quebraEm 'e' cs with
  | [mant] => (parteMantissa mant).map (fun q => sgn * q)
  | [mant, ex] =>
    match parteMantissa mant, parteExpoente ex with
    | some q, some e => some (sgn * q * (10 : ℚ) ^ e)
    | _, _ => none
  | _ => none

/-- Embeds `utils.br_to_float`: `None`/blank input yields `0.0`; otherwise strip,
remove every `.` (thousands separator), turn `,` into `.`, and `float()` it,
with `ValueError` collapsing to `0.0`. -/
def br_to_float (value : Option String) : ℚ :=
  match value with
  | none => 0
  | some v =>
    let s := aparar v
    if s = "" then 0
    else
      let cs := (s.toList.filter (· ≠ '.')).map fun c => if c = ',' then '.' else c
      match pythonFloat? (String.mk cs) with
      | some q => q
      | none => 0

/-! ## Data model -/

/-- A parser output record (`{"data", "descricao", "favorecido", "valor"}` in
`core/importacao.py`).  Amounts are exact decimals in every code path that
produces them, so they are embedded as rationals. -/
structure RawLine where
  data : Option String
  descricao : String
  favorecido : String
  valor : ℚ
deriving Repr, DecidableEq

/-- A row of `regras_auto_categorizacao` (schema in `core/db.py`). -/
structure Regra where
  codigoempresa : String
  campo_alvo : String
  tipo_match : String
  padrao_texto : String
  categoria_id : Option Int
  centro_custo_id : Option Int
  descricao_sugerida : Option String
  forma_pagamento_fixa : Option String
  prioridade : Int
  ativo : Bool
deriving Repr, DecidableEq

/-- The columns of a `transactions` row read by the dedup query in
`_gravar_staging` (`core/importacao.py` lines 155-162). -/
structure LedgerTx where
  codigoempresa : String
  conta_id : Int
  data_lancamento : Option String
  valor : ℚ
  descricao_extrato : String
deriving Repr, DecidableEq

/-- The columns of `staging_transacoes_import` written by `_gravar_staging`
(`core/importacao.py` lines 184-208). -/
structure StagingRow where
  codigoempresa : String
  importacao_id : Int
  conta_id : Int
  data_lancamento : Option String
  descricao_extrato : String
  favorecido_texto : String
  valor : ℚ
  forma_pagamento_detectada : Option String
  categoria_sugerida_id : Option Int
  centro_custo_sugerido_id : Option Int
  origem_sugestao : String
  status_classificacao : String
deriving Repr, DecidableEq

/-! ## `core/regras.py` — rule engine -/

/-- Model of the Python `re` library as seen by `_match_pattern`:
`reCompile p = none` when the pattern `p` is malformed (compiling/searching
raises `re.error`), and `some busca` when it is well-formed, with
`busca v = (re.search(p, v) is not None)`. -/
abbrev ReCompile := String → Option (String → Bool)

/-- Embeds `regras._match_pattern`: both sides are upper-cased except for the
`regex` kind, which searches the original-case value and treats a malformed
pattern as a non-match (the `try/except re.error` returns `False`).
Callers pass already-`or ""`-defaulted strings for `valor`/`padrao`. -/
def match_pattern (reCompile : ReCompile) (valor tipo_match padrao : String) : Bool :=
  let valor_norm := paraMaiusculas valor
  let padrao_norm := paraMaiusculas padrao
  if tipo_match = "contem" then contidoEm padrao_norm.toList valor_norm.toList
  else if tipo_match = "igual" then valor_norm == padrao_norm
  else if tipo_match = "prefixo" then comecaCom padrao_norm.toList valor_norm.toList
  else if tipo_match = "sufixo" then
    comecaCom padrao_norm.toList.reverse valor_norm.toList.reverse
  else if tipo_match = "regex" then
    match reCompile padrao with
    | none => false
    | some busca => busca valor
  else false

/-- The rule-engine result tuple
`(categoria_id, centro_custo_id, descricao_sugerida, forma_pagamento_fixa)`. -/
abbrev Sugestao := Option Int × Option Int × Option String × Option String

/-- The `campo_map` dict of `aplicar_regras_auto_categorizacao` together with
its `.get(campo_alvo, "")` lookup; each entry is `... or ""`-defaulted. -/
def campo_map (descricao_extrato : String)
    (favorecido_texto forma_pagamento_detectada : Option String)
    (campo : String) : String :=
  if campo = "descricao_extrato" then descricao_extrato
  else if campo = "favorecido_texto" then favorecido_texto.getD ""
  else if campo = "forma_pagamento" then forma_pagamento_detectada.getD ""
  else ""

/-- The `for regra in regras` scan of `aplicar_regras_auto_categorizacao`:
skip a rule whose resolved target-field value is empty, return the first
matching rule's four output columns, fall through to all-`none`. -/
def varre_regras (reCompile : ReCompile) (campoVal : String → String) :
    List Regra → Sugestao
  | [] => (none, none, none, none)
  | regra :: rest =>
    let valor_referencia := campoVal regra.campo_alvo
    if valor_referencia = "" then varre_regras reCompile campoVal rest
    else if match_pattern reCompile valor_referencia regra.tipo_match regra.padrao_texto then
      (regra.categoria_id, regra.centro_custo_id,
        regra.descricao_sugerida, regra.forma_pagamento_fixa)
    else varre_regras reCompile campoVal rest

/-- The rule query
`SELECT * FROM regras_auto_categorizacao WHERE codigoempresa = ? AND ativo = 1
ORDER BY prioridade DESC` over the table contents `regrasDb` at query time.
the stable insertion sort realizes the (tie-unspecified) SQL ordering. -/
def regras_consulta (regrasDb : List Regra) (codigoempresa : String) : List Regra :=
  (regrasDb.filter fun r => r.codigoempresa == codigoempresa && r.ativo).insertionSort
    fun a b => b.prioridade ≤ a.prioridade

/-- Embeds `regras.aplicar_regras_auto_categorizacao`.  The function opens its own
connection and runs the rule query itself, so `regrasDb` is the state of the
tenant's rule table at the moment of this particular call. -/
def aplicar_regras_auto_categorizacao (reCompile : ReCompile) (regrasDb : List Regra)
    (codigoempresa : String) (descricao_extrato : String)
    (favorecido_texto forma_pagamento_detectada : Option String) : Sugestao :=
  varre_regras reCompile
    (campo_map descricao_extrato favorecido_texto forma_pagamento_detectada)
    (regras_consulta regrasDb codigoempresa)

/-! ## `core/importacao.py` — CSV parser -/

/-- Models `h_norm.index`-style role-column resolution: the first synonym present in
the normalized header wins, at its first occurrence. -/
def idx_coluna (h_norm : List String) (possiveis : List String) : Option Nat :=
  possiveis.findSome? fun p => h_norm.findIdx? (· = p)

/-- Models `row[i]` on a Python list: out-of-range indexing raises `IndexError`. -/
def celula (row : List String) (i : Nat) : Except String String :=
  match row.get? i with
  | some c => Except.ok c
  | none => Except.error "IndexError: list index out of range"

/-- One data-row iteration of `_parse_csv`: fully blank rows are skipped
(`ok none`); otherwise the date, description and amount cells are read in
source order, each through the resolved role column when present and a
default otherwise. -/
def parse_csv_linha (idx_data idx_desc idx_valor : Option Nat)
    (row : List String) : Except String (Option RawLine) :=
  if row = [] ∨ row.all (fun c => aparar c = "") then Except.ok none
  else
    match (match idx_data with
           | some i => (celula row i).map (fun c => parse_date c)
           | none => Except.ok none) with
    | Except.error e => Except.error e
    | Except.ok data =>
      match (match idx_desc with
             | some i => (celula row i).map (fun c : String => aparar c)
             | none => Except.ok "") with
      | Except.error e => Except.error e
      | Except.ok descricao =>
        match (match idx_valor with
               | some i => celula row i
               | none => Except.ok "0") with
        | Except.error e => Except.error e
        | Except.ok raw_valor =>
          Except.ok (some
            { data := data, descricao := descricao, favorecido := descricao,
              valor := br_to_float (some raw_valor) })

/-- The data-row loop of `_parse_csv`. -/
def parse_csv_linhas (idx_data idx_desc idx_valor : Option Nat) :
    List (List String) → Except String (List RawLine)
  | [] => Except.ok []
  | row :: rest =>
    match parse_csv_linha idx_data idx_desc idx_valor row with
    | Except.error e => Except.error e
    | Except.ok l? =>
      match parse_csv_linhas idx_data idx_desc idx_valor rest with
      | Except.error e => Except.error e
      | Except.ok ls =>
        Except.ok (match l? with
          | some l => l :: ls
          | none => ls)

/-- Embeds `importacao._parse_csv` over the row sequence delivered by
`csv.reader(f, delimiter=";")`: the first row is the header (a missing header
yields the empty list), roles are resolved by case-insensitive synonym lookup,
then every data row is converted. -/
def parse_csv (rows : List (List String)) : Except String (List RawLine) :=
  match rows with
  | [] => Except.ok []
  | header :: dataRows =>
    let h_norm := header.map fun h => paraMinusculas (aparar h)
    let idx_data := idx_coluna h_norm ["data", "dt", "date"]
    let idx_desc := idx_coluna h_norm
      ["descricao", "descrição", "historico", "histórico", "memo", "description"]
    let idx_valor := idx_coluna h_norm
      ["valor", "amount", "vl", "debito", "crédito", "credito"]
    parse_csv_linhas idx_data idx_desc idx_valor dataRows

/-! ## `core/importacao.py` — dedup check and staging writer -/

/-- SQL `=` under three-valued logic: a comparison involving `NULL` on either
side is never satisfied. -/
def sqlIgualTexto : Option String → Option String → Bool
  | some a, some b => a == b
  | _, _ => false

/-- The dedup query of `_gravar_staging` (lines 155-162): an existing
`transactions` row with the same tenant and account, and (SQL-)equal
`data_lancamento`, `valor` and `descricao_extrato`. -/
def eh_duplicado (ledger : List LedgerTx) (codigoempresa : String) (conta_id : Int)
    (data_str : Option String) (valor : ℚ) (descricao : String) : Bool :=
  ledger.any fun t =>
    t.codigoempresa == codigoempresa && t.conta_id == conta_id &&
    sqlIgualTexto t.data_lancamento data_str &&
    t.valor == valor && t.descricao_extrato == descricao

/-- Python truthiness of a nullable integer column value. -/
def truthyInt : Option Int → Bool
  | some n => n != 0
  | none => false

/-- Python truthiness of a nullable text column value. -/
def truthyStr : Option String → Bool
  | some s => s != ""
  | none => false

/-- Models `if cat_id or cc_id or desc_sug:` — the rule-output truthiness test of
`_gravar_staging`, negated: `true` when the suggestion leaves the line with
`origem_sugestao = "desconhecido"`. -/
def sem_sugestao (sug : Sugestao) : Bool :=
  !(truthyInt sug.1 || truthyInt sug.2.1 || truthyStr sug.2.2.1)

/-- The staging `INSERT` of `_gravar_staging` (lines 174-208) for one
non-duplicate line and its rule-engine result: `forma_pag` starts as `None`
and is overwritten only by a truthy `forma_fixada`; `origem_sugestao` is
`"regra"` exactly when one of category/cost-center/suggested-description is
truthy; `status_classificacao` follows `origem_sugestao`. -/
def monta_staging_row (codigoempresa : String) (importacao_id conta_id : Int)
    (linha : RawLine) (sug : Sugestao) : StagingRow :=
  let forma_pag := if truthyStr sug.2.2.2 then sug.2.2.2 else none
  let origem := if sem_sugestao sug then "desconhecido" else "regra"
  { codigoempresa, importacao_id, conta_id,
    data_lancamento := linha.data,
    descricao_extrato := linha.descricao,
    favorecido_texto := linha.favorecido,
    valor := linha.valor,
    forma_pagamento_detectada := forma_pag,
    categoria_sugerida_id := sug.1,
    centro_custo_sugerido_id := sug.2.1,
    origem_sugestao := origem,
    status_classificacao := if origem = "desconhecido" then "desconhecido" else "sugerido" }

/-- Result of `_gravar_staging`: the inserted staging rows in order, plus the
two counters it returns. -/
structure GravaResultado where
  staged : List StagingRow
  total_deduplicados : Nat
  total_desconhecidos : Nat
deriving Repr, DecidableEq

/-- The per-line loop of `_gravar_staging`.  `regrasAt k` is the content of
the tenant's rule table observed by the `k`-th rule query of this batch:
`aplicar_regras_auto_categorizacao` opens a fresh connection per call, and is
called once per non-duplicate line, so the query counter advances only on
staged lines.  The computed-and-discarded `make_hash_unique` call (line 153)
has no observable effect and is omitted. -/
def gravar_staging_go (reCompile : ReCompile) (regrasAt : Nat → List Regra)
    (ledger : List LedgerTx) (codigoempresa : String) (conta_id importacao_id : Int) :
    List RawLine → Nat → GravaResultado
  | [], _ => ⟨[], 0, 0⟩
  | linha :: rest, k =>
    if eh_duplicado ledger codigoempresa conta_id linha.data linha.valor linha.descricao then
      let r := gravar_staging_go reCompile regrasAt ledger codigoempresa conta_id
        importacao_id rest k
      ⟨r.staged, r.total_deduplicados + 1, r.total_desconhecidos⟩
    else
      let sug := aplicar_regras_auto_categorizacao reCompile (regrasAt k)
        codigoempresa linha.descricao (some linha.favorecido) none
      let r := gravar_staging_go reCompile regrasAt ledger codigoempresa conta_id
        importacao_id rest (k + 1)
      ⟨monta_staging_row codigoempresa importacao_id conta_id linha sug :: r.staged,
        r.total_deduplicados,
        (if sem_sugestao sug then 1 else 0) + r.total_desconhecidos⟩

/-- Embeds `importacao._gravar_staging`. -/
def gravar_staging (reCompile : ReCompile) (regrasAt : Nat → List Regra)
    (ledger : List LedgerTx) (codigoempresa : String) (conta_id importacao_id : Int)
    (linhas : List RawLine) : GravaResultado :=
  gravar_staging_go reCompile regrasAt ledger codigoempresa conta_id importacao_id linhas 0

/-- The counter columns of an `importacoes_extrato` row. -/
structure BatchCounters where
  total_no_arquivo : Nat
  total_deduplicados : Nat
  total_importados : Nat
  total_desconhecidos_pos_importacao : Nat
deriving Repr, DecidableEq

/-- Embeds `importacao.importar_arquivo_e_criar_staging`, lines 55-68: the staging
phase over the parsed line list `linhas` (lines 48-53 obtain `linhas` from the
file via `_parse_ofx`/`_parse_csv`/`[]`).  The batch row is updated with
`total_no_arquivo = len(linhas)` and the two staging counters;
`total_importados` keeps its column default `0` — this step never touches it. -/
def importar_arquivo_e_criar_staging (reCompile : ReCompile) (regrasAt : Nat → List Regra)
    (ledger : List LedgerTx) (codigoempresa : String) (conta_id importacao_id : Int)
    (linhas : List RawLine) : BatchCounters × List StagingRow :=
  let r := gravar_staging reCompile regrasAt ledger codigoempresa conta_id importacao_id linhas
  ({ total_no_arquivo := linhas.length,
     total_deduplicados := r.total_deduplicados,
     total_importados := 0,
     total_desconhecidos_pos_importacao := r.total_desconhecidos }, r.staged)

/-! ## `ui/../import_view.py` — commit step (`_confirmar_importacao`) -/

/-- An SQLite bound value. -/
inductive SqlValue where
  | null
  | int (i : Int)
  | real (r : ℚ)
  | text (s : String)
deriving Repr, DecidableEq

/-- A nullable integer column parameter. -/
def sqlOptInt : Option Int → SqlValue
  | some i => SqlValue.int i
  | none => SqlValue.null

/-- A nullable text column parameter. -/
def sqlOptText : Option String → SqlValue
  | some s => SqlValue.text s
  | none => SqlValue.null

/-- The SQL text of the ledger `INSERT` in `_confirmar_importacao`
(import_view.py lines 317-324), verbatim up to whitespace. -/
def insert_transactions_sql : String :=
  "INSERT INTO transactions (codigoempresa, conta_id, data_lancamento, data_competencia, descricao_extrato, descricao_tratada, tipo_movimento, valor, categoria_id, centro_custo_id, forma_pagamento, id_importacao, created_at, updated_at) VALUES (?, ?, ?, ?, ?, ?, ?, ?, ?, ?, ?, ?, datetime('now'), datetime('now'))"

/-- Number of `?` parameter markers in an SQL statement. -/
def conta_placeholders (sql : String) : Nat :=
  (sql.toList.filter (· = '?')).length

/-- The parameter tuple passed with the ledger `INSERT`
(import_view.py lines 325-337), transcribed entry by entry: tenant, account,
date twice (lancamento and competence), description twice (raw and treated),
the movement kind derived by `"credito" if valor > 0 else "debito"`, then the
suggestion columns and the batch id.  Note the tuple has 11 entries while the
statement's column list names 12 bound columns — the slot for `valor` is
never supplied. -/
def parametros_confirmacao (codigoempresa : String) (importacao_id : Int)
    (row : StagingRow) : List SqlValue :=
  [ SqlValue.text codigoempresa,
    SqlValue.int row.conta_id,
    sqlOptText row.data_lancamento,
    sqlOptText row.data_lancamento,
    SqlValue.text row.descricao_extrato,
    SqlValue.text row.descricao_extrato,
    SqlValue.text (if row.valor > 0 then "credito" else "debito"),
    sqlOptInt row.categoria_sugerida_id,
    sqlOptInt row.centro_custo_sugerido_id,
    sqlOptText row.forma_pagamento_detectada,
    SqlValue.int importacao_id ]

/-- Models the `sqlite3` `Connection.execute` arity rule: supplying a parameter sequence
whose length differs from the number of `?` markers raises
`ProgrammingError` before anything is written. -/
def executa_insert (sql : String) (params : List SqlValue) : Except String Unit :=
  if params.length = conta_placeholders sql then Except.ok ()
  else Except.error "ProgrammingError: Incorrect number of bindings supplied"

/-- The `for row in rows` commit loop of `_confirmar_importacao`, counting
`total_importados += 1` after each successful insert; the first failing
insert propagates out of the `try` block. -/
def confirmar_importacao_go (codigoempresa : String) (importacao_id : Int) :
    List StagingRow → Nat → Except String Nat
  | [], n => Except.ok n
  | row :: rest, n =>
    match executa_insert insert_transactions_sql
        (parametros_confirmacao codigoempresa importacao_id row) with
    | Except.ok _ => confirmar_importacao_go codigoempresa importacao_id rest (n + 1)
    | Except.error e => Except.error e

/-- Embeds `import_view._confirmar_importacao` over the staging rows selected for
the batch: on success the returned count is written to
`importacoes_extrato.total_importados` and the transaction committed; on
error the exception escapes the `try`, the connection is closed by `finally`
without a commit, and nothing persists. -/
def confirmar_importacao (codigoempresa : String) (importacao_id : Int)
    (staging : List StagingRow) : Except String Nat :=
  confirmar_importacao_go codigoempresa importacao_id staging 0

/-! ## Derived notions used by the theorems -/

/-- The dedup predicate applied to a whole `RawLine` (the three compared
fields are exactly the ones `_gravar_staging` extracts from the line). -/
def linha_duplicada (ledger : List LedgerTx) (codigoempresa : String) (conta_id : Int)
    (l : RawLine) : Bool :=
  eh_duplicado ledger codigoempresa conta_id l.data l.valor l.descricao

/-- The lines of a file that survive the ledger dedup check. -/
def linhas_nao_duplicadas (ledger : List LedgerTx) (codigoempresa : String)
    (conta_id : Int) (linhas : List RawLine) : List RawLine :=
  linhas.filter fun l => !linha_duplicada ledger codigoempresa conta_id l

/-- The rule-engine result for one staged line, where `k` is the index of the
rule query issued for it within the batch. -/
def sugestao_da_linha (reCompile : ReCompile) (regrasAt : Nat → List Regra)
    (codigoempresa : String) (k : Nat) (l : RawLine) : Sugestao :=
  aplicar_regras_auto_categorizacao reCompile (regrasAt k) codigoempresa
    l.descricao (some l.favorecido) none

/-- A rule is applicable to the candidate fields: its resolved target value is
non-empty and its pattern matches. -/
def regra_aplica (reCompile : ReCompile) (campoVal : String → String) (r : Regra) : Bool :=
  !(campoVal r.campo_alvo == "") &&
    match_pattern reCompile (campoVal r.campo_alvo) r.tipo_match r.padrao_texto

/-- A `regex`-kind rule whose pattern the regex library rejects. -/
def regex_malformada (reCompile : ReCompile) (r : Regra) : Bool :=
  r.tipo_match == "regex" && (reCompile r.padrao_texto).isNone

/-! ## Helper lemmas -/

theorem varre_regras_skip (reCompile : ReCompile) (campoVal : String → String)
    (r : Regra) (rest : List Regra)
    (h : campoVal r.campo_alvo = "" ∨
      match_pattern reCompile (campoVal r.campo_alvo) r.tipo_match r.padrao_texto = false) :
    varre_regras reCompile campoVal (r :: rest) = varre_regras reCompile campoVal rest := by
  rcases h with h | h
  · simp [varre_regras, h]
  · by_cases h0 : campoVal r.campo_alvo = ""
    · simp [varre_regras, h0]
    · simp [varre_regras, h0, h]

theorem varre_regras_hit (reCompile : ReCompile) (campoVal : String → String)
    (r : Regra) (rest : List Regra)
    (h0 : ¬ campoVal r.campo_alvo = "")
    (h : match_pattern reCompile (campoVal r.campo_alvo) r.tipo_match r.padrao_texto = true) :
    varre_regras reCompile campoVal (r :: rest) =
      (r.categoria_id, r.centro_custo_id, r.descricao_sugerida, r.forma_pagamento_fixa) := by
  simp [varre_regras, h0, h]

theorem varre_regras_skip_of_nao_aplica (reCompile : ReCompile) (campoVal : String → String)
    (r : Regra) (rest : List Regra)
    (h : regra_aplica reCompile campoVal r = false) :
    varre_regras reCompile campoVal (r :: rest) = varre_regras reCompile campoVal rest := by
  apply varre_regras_skip
  by_cases h0 : campoVal r.campo_alvo = ""
  · exact Or.inl h0
  · right
    simpa [regra_aplica, h0] using h

/-- Scanning ignores every rule that a pointwise-inapplicable predicate
filters out: if `P r = false` forces the scan to skip `r`, the scan over a
list equals the scan over its `P`-filtered sublist. -/
theorem varre_regras_filter (reCompile : ReCompile) (campoVal : String → String)
    (P : Regra → Bool)
    (hP : ∀ r, P r = false → regra_aplica reCompile campoVal r = false) :
    ∀ L : List Regra,
      varre_regras reCompile campoVal L = varre_regras reCompile campoVal (L.filter P)
  | [] => rfl
  | r :: rest => by
    by_cases hPr : P r = true
    · by_cases hap : regra_aplica reCompile campoVal r = true
      · have h0 : ¬ campoVal r.campo_alvo = "" := by
          intro h0
          simp [regra_aplica, h0] at hap
        have hm : match_pattern reCompile (campoVal r.campo_alvo) r.tipo_match r.padrao_texto = true := by
          simpa [regra_aplica, h0] using hap
        rw [List.filter_cons_of_pos hPr, varre_regras_hit _ _ _ _ h0 hm,
          varre_regras_hit _ _ _ _ h0 hm]
      · have hap' : regra_aplica reCompile campoVal r = false := by
          simpa using hap
        rw [List.filter_cons_of_pos hPr,
          varre_regras_skip_of_nao_aplica _ _ _ _ hap',
          varre_regras_skip_of_nao_aplica _ _ _ _ hap',
          varre_regras_filter reCompile campoVal P hP rest]
    · have hPr' : P r = false := by simpa using hPr
      rw [List.filter_cons_of_neg (by simp [hPr']),
        varre_regras_skip_of_nao_aplica _ _ _ _ (hP r hPr'),
        varre_regras_filter reCompile campoVal P hP rest]

/-- In a priority-descending list, if `r` is applicable and every other
applicable element has strictly lower priority, the scan returns `r`'s
outputs. -/
theorem varre_regras_primeira (reCompile : ReCompile) (campoVal : String → String)
    (r : Regra) :
    ∀ S : List Regra, r ∈ S →
      regra_aplica reCompile campoVal r = true →
      (∀ x ∈ S, x ≠ r → regra_aplica reCompile campoVal x = true →
        x.prioridade < r.prioridade) →
      List.Pairwise (fun a b => b.prioridade ≤ a.prioridade) S →
      varre_regras reCompile campoVal S =
        (r.categoria_id, r.centro_custo_id, r.descricao_sugerida, r.forma_pagamento_fixa)
  | [], hmem, _, _, _ => absurd hmem (List.not_mem_nil r)
  | x :: t, hmem, hap, hmax, hsort => by
    by_cases hx : x = r
    · subst hx
      have h0 : ¬ campoVal x.campo_alvo = "" := by
        intro h0
        simp [regra_aplica, h0] at hap
      have hm : match_pattern reCompile (campoVal x.campo_alvo) x.tipo_match x.padrao_texto = true := by
        simpa [regra_aplica, h0] using hap
      exact varre_regras_hit _ _ _ _ h0 hm
    · have hmem' : r ∈ t := by
        rcases List.mem_cons.mp hmem with h | h
        · exact absurd h.symm hx
        · exact h
      have hxap : regra_aplica reCompile campoVal x = false := by
        by_contra hc
        have hxt : regra_aplica reCompile campoVal x = true := by
          simpa using hc
        have hlt : x.prioridade < r.prioridade :=
          hmax x (List.mem_cons_self x t) hx hxt
        have hle : r.prioridade ≤ x.prioridade :=
          (List.pairwise_cons.mp hsort).1 r hmem'
        exact absurd hlt (not_lt.mpr hle)
      rw [varre_regras_skip_of_nao_aplica _ _ _ _ hxap]
      exact varre_regras_primeira reCompile campoVal r t hmem' hap
        (fun y hy => hmax y (List.mem_cons_of_mem x hy))
        (List.pairwise_cons.mp hsort).2

/-- Shows `regras_consulta` is a permutation of the tenant's active rules and is
priority-descending. -/
theorem regras_consulta_perm (regrasDb : List Regra) (codigoempresa : String) :
    (regras_consulta regrasDb codigoempresa).Perm
      (regrasDb.filter fun r => r.codigoempresa == codigoempresa && r.ativo) :=
  List.perm_insertionSort _ _

theorem regras_consulta_sorted (regrasDb : List Regra) (codigoempresa : String) :
    List.Pairwise (fun a b : Regra => b.prioridade ≤ a.prioridade)
      (regras_consulta regrasDb codigoempresa) := by
  haveI : IsTotal Regra (fun a b : Regra => b.prioridade ≤ a.prioridade) :=
    ⟨fun a b => le_total b.prioridade a.prioridade⟩
  haveI : IsTrans Regra (fun a b : Regra => b.prioridade ≤ a.prioridade) :=
    ⟨fun _ _ _ hab hbc => le_trans hbc hab⟩
  exact List.sorted_insertionSort _ _

/-- Full characterization of the staging loop: dedup counts the lines already
in the ledger; the surviving lines are staged in order, the `k`-th staged line
classified by the rule table seen at the `k`-th rule query; the unknown
counter counts staged lines whose rule output is entirely Python-falsy. -/
theorem gravar_staging_go_spec (reCompile : ReCompile) (regrasAt : Nat → List Regra)
    (ledger : List LedgerTx) (codigoempresa : String) (conta_id importacao_id : Int) :
    ∀ (linhas : List RawLine) (k : Nat),
      gravar_staging_go reCompile regrasAt ledger codigoempresa conta_id importacao_id linhas k =
        { staged := (List.enumFrom k
              (linhas_nao_duplicadas ledger codigoempresa conta_id linhas)).map
            (fun p => monta_staging_row codigoempresa importacao_id conta_id p.2
              (sugestao_da_linha reCompile regrasAt codigoempresa p.1 p.2)),
          total_deduplicados :=
            (linhas.filter fun l => linha_duplicada ledger codigoempresa conta_id l).length,
          total_desconhecidos := ((List.enumFrom k
              (linhas_nao_duplicadas ledger codigoempresa conta_id linhas)).filter
            (fun p => sem_sugestao
              (sugestao_da_linha reCompile regrasAt codigoempresa p.1 p.2))).length }
  | [], k => by
    simp [gravar_staging_go, linhas_nao_duplicadas, List.enumFrom]
  | linha :: rest, k => by
    by_cases hdup : linha_duplicada ledger codigoempresa conta_id linha
    · have hd : eh_duplicado ledger codigoempresa conta_id linha.data linha.valor
          linha.descricao = true := hdup
      rw [gravar_staging_go, if_pos hd,
        gravar_staging_go_spec reCompile regrasAt ledger codigoempresa conta_id
          importacao_id rest k]
      simp [linhas_nao_duplicadas, List.filter_cons, hdup, linha_duplicada, hd]
    · have hd : ¬ (eh_duplicado ledger codigoempresa conta_id linha.data linha.valor
          linha.descricao = true) := hdup
      rw [gravar_staging_go, if_neg hd,
        gravar_staging_go_spec reCompile regrasAt ledger codigoempresa conta_id
          importacao_id rest (k + 1)]
      have hdf : eh_duplicado ledger codigoempresa conta_id linha.data linha.valor
          linha.descricao = false := by
        simpa using hd
      simp [linhas_nao_duplicadas, List.filter_cons, linha_duplicada, hdf,
        List.enumFrom, sugestao_da_linha]
      split_ifs <;> simp [Nat.add_comm]

theorem length_filter_par {α : Type _} (p : α → Bool) :
    ∀ l : List α, (l.filter p).length + (l.filter fun a => !p a).length = l.length
  | [] => rfl
  | a :: l => by
    have ih := length_filter_par p l
    by_cases h : p a = true
    · simp [List.filter_cons, h]
      omega
    · have h' : p a = false := by simpa using h
      simp [List.filter_cons, h']
      omega

theorem length_filter_enumFrom {α : Type _} (q : α → Bool) :
    ∀ (k : Nat) (M : List α),
      ((List.enumFrom k M).filter fun p => q p.2).length = (M.filter q).length
  | _, [] => rfl
  | k, a :: M => by
    by_cases h : q a = true
    · simp [List.enumFrom, List.filter_cons, h, length_filter_enumFrom q (k + 1) M]
    · have h' : q a = false := by simpa using h
      simp [List.enumFrom, List.filter_cons, h', length_filter_enumFrom q (k + 1) M]

theorem monta_staging_row_origem (codigoempresa : String) (importacao_id conta_id : Int)
    (linha : RawLine) (sug : Sugestao) :
    ((monta_staging_row codigoempresa importacao_id conta_id linha sug).origem_sugestao
      == "desconhecido") = sem_sugestao sug := by
  by_cases h : sem_sugestao sug = true
  · simp [monta_staging_row, h]
  · have h' : sem_sugestao sug = false := by simpa using h
    simp [monta_staging_row, h']

theorem monta_staging_row_data (codigoempresa : String) (importacao_id conta_id : Int)
    (linha : RawLine) (sug : Sugestao) :
    (monta_staging_row codigoempresa importacao_id conta_id linha sug).data_lancamento
      = linha.data := rfl

/-- A successfully parsed non-blank CSV data row has the record shape built by
`parse_csv_linha`, with each field coming from its role column's read. -/
theorem parse_csv_linha_shape (i1 i2 i3 : Option Nat) (row : List String) (l : RawLine)
    (h : parse_csv_linha i1 i2 i3 row = Except.ok (some l)) :
    ∃ (data : Option String) (descricao raw_valor : String),
      (match i1 with
        | some i => (celula row i).map (fun c => parse_date c)
        | none => Except.ok none) = Except.ok data ∧
      (match i2 with
        | some i => (celula row i).map (fun c : String => aparar c)
        | none => Except.ok "") = Except.ok descricao ∧
      (match i3 with
        | some i => celula row i
        | none => Except.ok "0") = Except.ok raw_valor ∧
      l = { data := data, descricao := descricao, favorecido := descricao,
            valor := br_to_float (some raw_valor) } := by
  unfold parse_csv_linha at h
  split at h
  · simp at h
  · split at h
    · exact Except.noConfusion h
    · split at h
      · exact Except.noConfusion h
      · split at h
        · exact Except.noConfusion h
        · simp only [Except.ok.injEq, Option.some.injEq] at h
          refine ⟨_, _, _, ?_, ?_, ?_, h.symm⟩ <;> assumption

/-- Fields of a successfully parsed non-blank CSV data row whose role columns
were not found: each missing role contributes its default. -/
theorem parse_csv_linha_campos (i1 i2 i3 : Option Nat) (row : List String) (l : RawLine)
    (h : parse_csv_linha i1 i2 i3 row = Except.ok (some l)) :
    (i1 = none → l.data = none) ∧ (i2 = none → l.descricao = "") ∧
      (i3 = none → l.valor = br_to_float (some "0")) := by
  obtain ⟨data, descricao, raw_valor, e1, e2, e3, rfl⟩ :=
    parse_csv_linha_shape i1 i2 i3 row l h
  refine ⟨?_, ?_, ?_⟩
  · intro h1
    subst h1
    simp at e1
    simp [e1]
  · intro h2
    subst h2
    simp at e2
    simp [e2]
  · intro h3
    subst h3
    simp at e3
    simp [e3]

theorem parse_csv_linhas_campos (i1 i2 i3 : Option Nat) :
    ∀ (rows : List (List String)) (lines : List RawLine),
      parse_csv_linhas i1 i2 i3 rows = Except.ok lines →
      ∀ l ∈ lines, (i1 = none → l.data = none) ∧ (i2 = none → l.descricao = "") ∧
        (i3 = none → l.valor = br_to_float (some "0"))
  | [], lines, h, l, hl => by
    simp [parse_csv_linhas] at h
    subst h
    simp at hl
  | row :: rest, lines, h, l, hl => by
    rw [parse_csv_linhas] at h
    rcases hrow : parse_csv_linha i1 i2 i3 row with e | l?
    · rw [hrow] at h
      simp at h
    · rw [hrow] at h
      rcases hrest : parse_csv_linhas i1 i2 i3 rest with e | ls
      · rw [hrest] at h
        simp at h
      · rw [hrest] at h
        rcases l? with _ | l0
        · simp at h
          subst h
          exact parse_csv_linhas_campos i1 i2 i3 rest ls hrest l hl
        · simp at h
          subst h
          rcases List.mem_cons.mp hl with hl0 | hlr
          · subst hl0
            exact parse_csv_linha_campos i1 i2 i3 row l hrow
          · exact parse_csv_linhas_campos i1 i2 i3 rest ls hrest l hlr

/-! ## Claim theorems -/

/-- C1: the commit step is claimed to insert one ledger transaction per
staging row (with the signed amount stored) and then set `total_importados`
to the committed count.  The code cannot do this: the `INSERT` names twelve
bound columns but the parameter tuple supplies only eleven values — the slot
for `valor` is missing — so for every batch with at least one staging row the
very first insert raises a binding-arity `ProgrammingError`, the transaction
is never committed, and the counter is never written. -/
theorem C1_commit_falha_bindings (codigoempresa : String) (importacao_id : Int)
    (row : StagingRow) (rest : List StagingRow) :
    confirmar_importacao codigoempresa importacao_id (row :: rest) =
      Except.error "ProgrammingError: Incorrect number of bindings supplied" := by
  have h12 : conta_placeholders insert_transactions_sql = 12 := by rfl
  have h11 : (parametros_confirmacao codigoempresa importacao_id row).length = 11 := by
    simp [parametros_confirmacao]
  rw [confirmar_importacao, confirmar_importacao_go]
  rw [executa_insert, h12, h11]
  simp

/-- C1 supporting fact: an empty staging selection commits successfully with
`total_importados = 0`, so the failure above is precisely the per-row insert. -/
theorem C1_commit_vazio (codigoempresa : String) (importacao_id : Int) :
    confirmar_importacao codigoempresa importacao_id [] = Except.ok 0 := rfl

/-- C2 counterexample: the rule table is re-queried for every staged line, so
an edit between the first and second query changes the classification of the
second of two identical lines — impossible if one rule set, loaded once per
batch, were used for every line.  With the schedule frozen at its first value
(the claimed behaviour) both identical lines get the same category. -/
theorem C2_contraexemplo_regras_por_linha :
    ((gravar_staging (fun _ => none)
        (fun k => if k = 0
          then [⟨"E", "descricao_extrato", "contem", "PIX", some 1, none, none, none, 10, true⟩]
          else [⟨"E", "descricao_extrato", "contem", "PIX", some 2, none, none, none, 10, true⟩])
        [] "E" 1 1
        [⟨none, "PIX LOJA", "PIX LOJA", 5⟩, ⟨none, "PIX LOJA", "PIX LOJA", 5⟩]).staged.map
        (fun row => row.categoria_sugerida_id) = [some 1, some 2]) ∧
    ((gravar_staging (fun _ => none)
        (fun _ => [⟨"E", "descricao_extrato", "contem", "PIX", some 1, none, none, none, 10, true⟩])
        [] "E" 1 1
        [⟨none, "PIX LOJA", "PIX LOJA", 5⟩, ⟨none, "PIX LOJA", "PIX LOJA", 5⟩]).staged.map
        (fun row => row.categoria_sugerida_id) = [some 1, some 1]) := by
  constructor <;> decide

/-- C2 (amended): the staging loop issues one rule query per non-duplicate
line — the `i`-th staged line is classified against the rule table observed
by the `i`-th query — so a rule edit committed mid-import does change which
rules apply to later lines of the same batch. -/
theorem C2_emenda_consulta_por_linha (reCompile : ReCompile) (regrasAt : Nat → List Regra)
    (ledger : List LedgerTx) (codigoempresa : String) (conta_id importacao_id : Int)
    (linhas : List RawLine) :
    (gravar_staging reCompile regrasAt ledger codigoempresa conta_id importacao_id
        linhas).staged =
      (List.enumFrom 0 (linhas_nao_duplicadas ledger codigoempresa conta_id linhas)).map
        (fun p => monta_staging_row codigoempresa importacao_id conta_id p.2
          (sugestao_da_linha reCompile regrasAt codigoempresa p.1 p.2)) := by
  rw [gravar_staging, gravar_staging_go_spec]

/-- C6: the movement kind bound by the commit insert is derived from the
amount sign by the strict `> 0` test: a positive amount binds `"credito"`,
any non-positive amount — zero included — binds `"debito"` (the seventh
parameter of the insert, position 6). -/
theorem C6_tipo_movimento (codigoempresa : String) (importacao_id : Int)
    (row : StagingRow) :
    (0 < row.valor →
      (parametros_confirmacao codigoempresa importacao_id row).get? 6 =
        some (SqlValue.text "credito")) ∧
    (row.valor ≤ 0 →
      (parametros_confirmacao codigoempresa importacao_id row).get? 6 =
        some (SqlValue.text "debito")) := by
  constructor
  · intro h
    simp [parametros_confirmacao, h]
  · intro h
    simp [parametros_confirmacao, not_lt.mpr h]

/-- C6 witness: amounts 100.00, −50.00 and 0.00 bind movement kinds
`credito`, `debito`, `debito` respectively. -/
theorem C6_tipo_movimento_witness :
    ((parametros_confirmacao "E" 1
        ⟨"E", 1, 1, none, "d", "d", 100, none, none, none, "regra", "sugerido"⟩).get? 6 =
      some (SqlValue.text "credito")) ∧
    ((parametros_confirmacao "E" 1
        ⟨"E", 1, 1, none, "d", "d", -50, none, none, none, "regra", "sugerido"⟩).get? 6 =
      some (SqlValue.text "debito")) ∧
    ((parametros_confirmacao "E" 1
        ⟨"E", 1, 1, none, "d", "d", 0, none, none, none, "regra", "sugerido"⟩).get? 6 =
      some (SqlValue.text "debito")) :=
  ⟨(C6_tipo_movimento "E" 1 _).1 (by decide),
   (C6_tipo_movimento "E" 1 _).2 (by decide),
   (C6_tipo_movimento "E" 1 _).2 (le_refl 0)⟩

/-- C7: deduplication compares each raw line against the persisted ledger
only — never against the other lines of the same file.  The number of staged
rows is the number of lines that do not match the ledger, counted with
multiplicity; in particular a file consisting of the same line twice stages
both copies whenever the ledger does not already hold it. -/
theorem C7_dedup_somente_ledger (reCompile : ReCompile) (regrasAt : Nat → List Regra)
    (ledger : List LedgerTx) (codigoempresa : String) (conta_id importacao_id : Int) :
    (∀ linhas : List RawLine,
      (gravar_staging reCompile regrasAt ledger codigoempresa conta_id importacao_id
          linhas).staged.length =
        (linhas_nao_duplicadas ledger codigoempresa conta_id linhas).length) ∧
    (∀ l : RawLine,
      (gravar_staging reCompile regrasAt ledger codigoempresa conta_id importacao_id
          [l, l]).staged.length =
        if linha_duplicada ledger codigoempresa conta_id l then 0 else 2) := by
  constructor
  · intro linhas
    rw [gravar_staging, gravar_staging_go_spec]
    simp [List.enumFrom_length]
  · intro l
    rw [gravar_staging, gravar_staging_go_spec]
    by_cases hd : linha_duplicada ledger codigoempresa conta_id l = true
    · simp [linhas_nao_duplicadas, hd]
    · have hd' : linha_duplicada ledger codigoempresa conta_id l = false := by
        simpa using hd
      simp [linhas_nao_duplicadas, hd', List.enumFrom]

/-- C3 counterexample: CSV parsing does raise on a malformed row.  With a
header that resolves all three role columns, a non-blank data row having
fewer cells than a resolved column index makes `row[idx]` raise `IndexError`
— the row is neither dropped nor defaulted, and the whole parse aborts. -/
theorem C3_contraexemplo_linha_curta :
    parse_csv [["data", "descricao", "valor"], ["x", "y"]] =
      Except.error "IndexError: list index out of range" := by rfl

/-- C3 (amended): when a role column is missing from the header, that field
is defaulted for every successfully parsed data row (date `none`, description
empty, amount parsed from the default input `"0"`); but a non-blank data row
with fewer cells than a resolved role column's index raises `IndexError`
instead of being dropped or defaulted. -/
theorem C3_emenda_colunas_ausentes (header : List String)
    (dataRows : List (List String)) (lines : List RawLine)
    (h : parse_csv (header :: dataRows) = Except.ok lines) :
    (idx_coluna (header.map fun s => paraMinusculas (aparar s)) ["data", "dt", "date"] = none →
      ∀ l ∈ lines, l.data = none) ∧
    (idx_coluna (header.map fun s => paraMinusculas (aparar s))
        ["descricao", "descrição", "historico", "histórico", "memo", "description"] = none →
      ∀ l ∈ lines, l.descricao = "") ∧
    (idx_coluna (header.map fun s => paraMinusculas (aparar s))
        ["valor", "amount", "vl", "debito", "crédito", "credito"] = none →
      ∀ l ∈ lines, l.valor = br_to_float (some "0")) := by
  rw [parse_csv] at h
  refine ⟨?_, ?_, ?_⟩
  · intro hnone l hl
    exact (parse_csv_linhas_campos _ _ _ dataRows lines h l hl).1 hnone
  · intro hnone l hl
    exact (parse_csv_linhas_campos _ _ _ dataRows lines h l hl).2.1 hnone
  · intro hnone l hl
    exact (parse_csv_linhas_campos _ _ _ dataRows lines h l hl).2.2 hnone

/-- C3 witness: a header with no recognizable role columns parses a non-blank
data row into the all-default line. -/
theorem C3_emenda_witness :
    ({ data := none, descricao := "", favorecido := "",
       valor := br_to_float (some "0") } : RawLine).data = none :=
  (C3_emenda_colunas_ausentes ["obs"] [["1", "2"]]
    [{ data := none, descricao := "", favorecido := "", valor := br_to_float (some "0") }]
    (by rfl)).1 (by decide)
    { data := none, descricao := "", favorecido := "", valor := br_to_float (some "0") }
    (List.mem_cons_self _ _)

/-- C4: after staging, `total_no_arquivo = total_deduplicados + (rows staged)`;
and the unknown counter equals both the number of staged rows whose stored
origin is `"desconhecido"` and the number of surviving lines for which the
rule engine produced no (truthy) category, cost-center or suggested
description. -/
theorem C4_contadores_lote (reCompile : ReCompile) (regrasAt : Nat → List Regra)
    (ledger : List LedgerTx) (codigoempresa : String) (conta_id importacao_id : Int)
    (linhas : List RawLine) :
    ((importar_arquivo_e_criar_staging reCompile regrasAt ledger codigoempresa conta_id
        importacao_id linhas).1.total_no_arquivo =
      (importar_arquivo_e_criar_staging reCompile regrasAt ledger codigoempresa conta_id
        importacao_id linhas).1.total_deduplicados +
      (importar_arquivo_e_criar_staging reCompile regrasAt ledger codigoempresa conta_id
        importacao_id linhas).2.length) ∧
    ((importar_arquivo_e_criar_staging reCompile regrasAt ledger codigoempresa conta_id
        importacao_id linhas).1.total_desconhecidos_pos_importacao =
      ((importar_arquivo_e_criar_staging reCompile regrasAt ledger codigoempresa conta_id
        importacao_id linhas).2.filter
          (fun row => row.origem_sugestao == "desconhecido")).length) ∧
    ((importar_arquivo_e_criar_staging reCompile regrasAt ledger codigoempresa conta_id
        importacao_id linhas).1.total_desconhecidos_pos_importacao =
      ((List.enumFrom 0 (linhas_nao_duplicadas ledger codigoempresa conta_id linhas)).filter
        (fun p => sem_sugestao
          (sugestao_da_linha reCompile regrasAt codigoempresa p.1 p.2))).length) := by
  rw [importar_arquivo_e_criar_staging, gravar_staging, gravar_staging_go_spec]
  refine ⟨?_, ?_, rfl⟩
  · simp only [List.length_map, List.enumFrom_length]
    have := length_filter_par
      (fun l => linha_duplicada ledger codigoempresa conta_id l) linhas
    simp only [linhas_nao_duplicadas]
    omega
  · rw [List.filter_map]
    rw [List.length_map]
    apply congrArg List.length
    apply List.filter_congr
    intro p _
    exact (monta_staging_row_origem codigoempresa importacao_id conta_id p.2
      (sugestao_da_linha reCompile regrasAt codigoempresa p.1 p.2)).symm

/-- C5: rules are scanned in strictly descending priority order and the first
match wins.  If an active rule `r` of the tenant is applicable to the line and
every other applicable active rule of the tenant has strictly lower priority,
the engine returns exactly `r`'s four outputs — whatever the order in which
the rules were inserted in the table. -/
theorem C5_prioridade_primeira_vence (reCompile : ReCompile) (regrasDb : List Regra)
    (codigoempresa descricao_extrato : String)
    (favorecido_texto forma_pagamento_detectada : Option String) (r : Regra)
    (hmem : r ∈ regrasDb) (hcod : r.codigoempresa = codigoempresa)
    (hativo : r.ativo = true)
    (haplica : regra_aplica reCompile
      (campo_map descricao_extrato favorecido_texto forma_pagamento_detectada) r = true)
    (hmax : ∀ x ∈ regrasDb, x ≠ r → x.codigoempresa = codigoempresa → x.ativo = true →
      regra_aplica reCompile
        (campo_map descricao_extrato favorecido_texto forma_pagamento_detectada) x = true →
      x.prioridade < r.prioridade) :
    aplicar_regras_auto_categorizacao reCompile regrasDb codigoempresa descricao_extrato
        favorecido_texto forma_pagamento_detectada =
      (r.categoria_id, r.centro_custo_id, r.descricao_sugerida, r.forma_pagamento_fixa) := by
  rw [aplicar_regras_auto_categorizacao]
  apply varre_regras_primeira
  · apply ((regras_consulta_perm regrasDb codigoempresa).mem_iff).mpr
    exact List.mem_filter.mpr ⟨hmem, by simp [hcod, hativo]⟩
  · exact haplica
  · intro x hx hxr hxap
    have hx' := ((regras_consulta_perm regrasDb codigoempresa).mem_iff).mp hx
    rcases List.mem_filter.mp hx' with ⟨hxdb, hcond⟩
    have hcond' : x.codigoempresa = codigoempresa ∧ x.ativo = true := by
      constructor
      · have := (Bool.and_eq_true _ _).mp hcond |>.1
        exact eq_of_beq this
      · exact (Bool.and_eq_true _ _).mp hcond |>.2
    exact hmax x hxdb hxr hcond'.1 hcond'.2 hxap
  · exact regras_consulta_sorted regrasDb codigoempresa

/-- C5 witness: two active rules match the same description with priorities
10 and 5; the priority-10 rule was inserted second, yet its suggestion is
returned. -/
theorem C5_prioridade_witness :
    aplicar_regras_auto_categorizacao (fun _ => none)
      [⟨"E", "descricao_extrato", "contem", "PIX", some 2, none, none, none, 5, true⟩,
       ⟨"E", "descricao_extrato", "contem", "PIX", some 1, none, none, none, 10, true⟩]
      "E" "PAGTO PIX LOJA" none none = (some 1, none, none, none) :=
  C5_prioridade_primeira_vence (fun _ => none)
    [⟨"E", "descricao_extrato", "contem", "PIX", some 2, none, none, none, 5, true⟩,
     ⟨"E", "descricao_extrato", "contem", "PIX", some 1, none, none, none, 10, true⟩]
    "E" "PAGTO PIX LOJA" none none
    ⟨"E", "descricao_extrato", "contem", "PIX", some 1, none, none, none, 10, true⟩
    (by decide) rfl rfl (by decide) (by decide)

/-- A dedup lookup whose line date is `NULL` never hits: SQL `=` against
`NULL` is not satisfied, whatever the ledger holds. -/
theorem eh_duplicado_data_none (ledger : List LedgerTx) (codigoempresa : String)
    (conta_id : Int) (valor : ℚ) (descricao : String) :
    eh_duplicado ledger codigoempresa conta_id none valor descricao = false := by
  refine List.any_eq_false.mpr ?_
  intro t ht
  cases h : t.data_lancamento <;> simp [sqlIgualTexto, h]

/-- C8: a `regex` rule whose pattern the regex library rejects never matches
and never raises: the match test is `false`, the scan proceeds exactly as if
every malformed-regex rule were removed from the ordered rule list, and if
every active rule of the tenant is a malformed-regex rule the engine returns
all-null (unknown classification). -/
theorem C8_regex_malformada_segura (reCompile : ReCompile)
    (codigoempresa descricao_extrato : String)
    (favorecido_texto forma_pagamento_detectada : Option String)
    (regrasDb : List Regra) :
    (∀ v p : String, reCompile p = none →
      match_pattern reCompile v "regex" p = false) ∧
    (aplicar_regras_auto_categorizacao reCompile regrasDb codigoempresa descricao_extrato
        favorecido_texto forma_pagamento_detectada =
      varre_regras reCompile
        (campo_map descricao_extrato favorecido_texto forma_pagamento_detectada)
        ((regras_consulta regrasDb codigoempresa).filter
          (fun r => !regex_malformada reCompile r))) ∧
    ((∀ r ∈ regrasDb, regex_malformada reCompile r = true) →
      aplicar_regras_auto_categorizacao reCompile regrasDb codigoempresa descricao_extrato
        favorecido_texto forma_pagamento_detectada = (none, none, none, none)) := by
  have hP : ∀ r : Regra, (!regex_malformada reCompile r) = false →
      regra_aplica reCompile
        (campo_map descricao_extrato favorecido_texto forma_pagamento_detectada) r = false := by
    intro r hr
    have hm : regex_malformada reCompile r = true := by simpa using hr
    have htipo : r.tipo_match = "regex" :=
      eq_of_beq ((Bool.and_eq_true _ _).mp hm).1
    have hnone : reCompile r.padrao_texto = none :=
      Option.isNone_iff_eq_none.mp ((Bool.and_eq_true _ _).mp hm).2
    simp [regra_aplica, match_pattern, htipo, hnone]
  refine ⟨?_, ?_, ?_⟩
  · intro v p hp
    simp [match_pattern, hp]
  · rw [aplicar_regras_auto_categorizacao]
    exact varre_regras_filter reCompile _ _ hP _
  · intro hall
    rw [aplicar_regras_auto_categorizacao,
      varre_regras_filter reCompile _ _ hP (regras_consulta regrasDb codigoempresa)]
    have hnil : (regras_consulta regrasDb codigoempresa).filter
        (fun r => !regex_malformada reCompile r) = [] := by
      refine List.filter_eq_nil_iff.mpr ?_
      intro r hr
      have hrdb : r ∈ regrasDb :=
        (List.mem_filter.mp (((regras_consulta_perm regrasDb codigoempresa).mem_iff).mp hr)).1
      simp [hall r hrdb]
    rw [hnil]
    rfl

/-- C8 witness: with a regex library that rejects the pattern, a single
regex rule yields the all-null classification. -/
theorem C8_regex_malformada_witness :
    aplicar_regras_auto_categorizacao (fun _ => none)
      [⟨"E", "descricao_extrato", "regex", "(", some 9, some 9, some "X", some "pix", 50, true⟩]
      "E" "QUALQUER COISA" none none = (none, none, none, none) :=
  (C8_regex_malformada_segura (fun _ => none) "E" "QUALQUER COISA" none none
    [⟨"E", "descricao_extrato", "regex", "(", some 9, some 9, some "X", some "pix", 50, true⟩]).2.2
    (by decide)

/-- C9: a rule whose resolved target-field value on the line is the empty
string is skipped and never matches: the scan behaves as if every such rule
were removed; in particular a single active `contem` rule targeting
`favorecido_texto` with an *empty pattern* — which would trivially match any
non-empty value — returns the all-null classification on a line whose
counterparty text is empty. -/
theorem C9_campo_vazio_nunca_casa (reCompile : ReCompile)
    (codigoempresa descricao_extrato : String)
    (favorecido_texto forma_pagamento_detectada : Option String)
    (regrasDb : List Regra) :
    (aplicar_regras_auto_categorizacao reCompile regrasDb codigoempresa descricao_extrato
        favorecido_texto forma_pagamento_detectada =
      varre_regras reCompile
        (campo_map descricao_extrato favorecido_texto forma_pagamento_detectada)
        ((regras_consulta regrasDb codigoempresa).filter
          (fun r => !(campo_map descricao_extrato favorecido_texto
              forma_pagamento_detectada r.campo_alvo == "")))) ∧
    (∀ (cat cc : Option Int) (ds fp : Option String) (pr : Int) (d2 : String)
        (fo2 : Option String),
      aplicar_regras_auto_categorizacao reCompile
        [⟨codigoempresa, "favorecido_texto", "contem", "", cat, cc, ds, fp, pr, true⟩]
        codigoempresa d2 (some "") fo2 = (none, none, none, none)) := by
  constructor
  · rw [aplicar_regras_auto_categorizacao]
    apply varre_regras_filter
    intro r hr
    have h0 : campo_map descricao_extrato favorecido_texto forma_pagamento_detectada
        r.campo_alvo = "" := by
      simpa using hr
    simp [regra_aplica, h0]
  · intro cat cc ds fp pr d2 fo2
    simp [aplicar_regras_auto_categorizacao, regras_consulta, List.insertionSort,
      List.orderedInsert, varre_regras, campo_map]

/-- C10: a raw line whose date failed to parse (null date) can never be a
duplicate — SQL equality with `NULL` has no hits even against a ledger row
with a `NULL` date and identical tenant/account/amount/description — so every
such line survives dedup and is staged: staged rows with a null date are in
bijection with the file's null-dated lines. -/
theorem C10_data_nula_sempre_staged :
    (∀ (ledger : List LedgerTx) (codigoempresa : String) (conta_id : Int)
        (valor : ℚ) (descricao : String),
      eh_duplicado ledger codigoempresa conta_id none valor descricao = false) ∧
    (∀ (ledger : List LedgerTx) (codigoempresa : String) (conta_id : Int)
        (linhas : List RawLine) (l : RawLine),
      l ∈ linhas → l.data = none →
      l ∈ linhas_nao_duplicadas ledger codigoempresa conta_id linhas) ∧
    (∀ (reCompile : ReCompile) (regrasAt : Nat → List Regra) (ledger : List LedgerTx)
        (codigoempresa : String) (conta_id importacao_id : Int) (linhas : List RawLine),
      ((gravar_staging reCompile regrasAt ledger codigoempresa conta_id importacao_id
          linhas).staged.filter
        (fun row => row.data_lancamento == (none : Option String))).length =
        (linhas.filter fun l => l.data == (none : Option String)).length) := by
  refine ⟨eh_duplicado_data_none, ?_, ?_⟩
  · intro ledger codigoempresa conta_id linhas l hm hd
    refine List.mem_filter.mpr ⟨hm, ?_⟩
    simp [linha_duplicada, hd, eh_duplicado_data_none]
  · intro reCompile regrasAt ledger codigoempresa conta_id importacao_id linhas
    rw [gravar_staging, gravar_staging_go_spec]
    simp only [List.filter_map]
    rw [List.length_map]
    have hcongr : ∀ p : Nat × RawLine,
        ((fun row => row.data_lancamento == (none : Option String)) ∘
          (fun p : Nat × RawLine =>
            monta_staging_row codigoempresa importacao_id conta_id p.2
              (sugestao_da_linha reCompile regrasAt codigoempresa p.1 p.2))) p =
          ((fun l : RawLine => l.data == (none : Option String)) p.2) := by
      intro p
      simp [Function.comp, monta_staging_row_data]
    rw [List.filter_congr (fun p _ => hcongr p)]
    rw [length_filter_enumFrom (fun l : RawLine => l.data == (none : Option String)) 0]
    rw [linhas_nao_duplicadas, List.filter_filter]
    apply congrArg List.length
    apply List.filter_congr
    intro l _
    cases hdata : l.data with
    | none =>
      simp [linha_duplicada, hdata, eh_duplicado_data_none]
    | some a =>
      simp [hdata]

/-- C10 witness: a line whose date string `"31-02-2024"` fails to parse
(February the 31st) survives dedup even though the ledger holds a row with a
null date and the same tenant, account, amount and description. -/
theorem C10_data_nula_witness :
    ({ data := parse_date "31-02-2024", descricao := "PAGTO X", favorecido := "PAGTO X",
       valor := 10 } : RawLine) ∈
      linhas_nao_duplicadas [⟨"E", 1, none, 10, "PAGTO X"⟩] "E" 1
        [{ data := parse_date "31-02-2024", descricao := "PAGTO X",
           favorecido := "PAGTO X", valor := 10 }] :=
  C10_data_nula_sempre_staged.2.1 [⟨"E", 1, none, 10, "PAGTO X"⟩] "E" 1
    [{ data := parse_date "31-02-2024", descricao := "PAGTO X",
       favorecido := "PAGTO X", valor := 10 }]
    { data := parse_date "31-02-2024", descricao := "PAGTO X",
      favorecido := "PAGTO X", valor := 10 }
    (List.mem_cons_self _ _) (by rfl)

end PlannerPJ
